import Mathlib

/-!
Verification of the sensor abstraction layer declared in
`src/src/omv/common/sensor.h` (OpenMV sensor capability dispatch layer).

The header gives the data model (enumerations, the `sensor_t` capability
record, the error taxonomy, the IOCTL request codes) directly; those are
embedded below verbatim.  The bodies of the declared functions are not part
of the repository's files, so each behavioural definition is modelled from
the specification's words and carries a doc comment starting
`Modelled from the spec:` naming what is missing.
-/

namespace OMV

/-! ## Chip identifier values (`sensor.h` lines 54-83) -/

def OV2640_ID : Nat := 0x26
def OV5640_ID : Nat := 0x56
def OV7670_ID : Nat := 0x76
def OV7690_ID : Nat := 0x76
def OV7725_ID : Nat := 0x77
def OV9650_ID : Nat := 0x96
def MT9V0X2_ID_V_1 : Nat := 0x1311
def MT9V0X2_ID_V_2 : Nat := 0x1312
def MT9V0X2_ID : Nat := 0x1313
def MT9V0X2_C_ID : Nat := 0x1413
def MT9V0X4_ID : Nat := 0x1324
def MT9V0X4_C_ID : Nat := 0x1424
def MT9M114_ID : Nat := 0x2481
def LEPTON_ID : Nat := 0x54
def LEPTON_1_5 : Nat := 0x5415
def LEPTON_1_6 : Nat := 0x5416
def LEPTON_2_0 : Nat := 0x5420
def LEPTON_2_5 : Nat := 0x5425
def LEPTON_3_0 : Nat := 0x5430
def LEPTON_3_5 : Nat := 0x5435
def HM01B0_ID : Nat := 0xB0
def HM0360_ID : Nat := 0x60
def GC2145_ID : Nat := 0x21
def GENX320_ID_ES : Nat := 0x30501C01
def GENX320_ID_MP : Nat := 0xB0602003
def PAG7920_ID : Nat := 0x7920
def PAG7936_ID : Nat := 0x7936
def PAJ6100_ID : Nat := 0x6100
def FROGEYE2020_ID : Nat := 0x2020

/-! ## Slave addresses (`sensor.h` lines 32-43) -/

def OV2640_SLV_ADDR : Nat := 0x60
def OV5640_SLV_ADDR : Nat := 0x78
def OV7725_SLV_ADDR : Nat := 0x42
def MT9V0XX_SLV_ADDR : Nat := 0xB8
def MT9M114_SLV_ADDR : Nat := 0x90
def LEPTON_SLV_ADDR : Nat := 0x54
def HM0XX0_SLV_ADDR : Nat := 0x48
def GC2145_SLV_ADDR : Nat := 0x78
def GENX320_SLV_ADDR : Nat := 0x78
def FROGEYE2020_SLV_ADDR : Nat := 0x6E
def PAG7920_SLV_ADDR : Nat := 0x80
def PAG7936_SLV_ADDR : Nat := 0x80

/-! ## `framesize_t` (`sensor.h` lines 85-130), with the resolutions the
header's comments attach to each standard frame size. -/

inductive framesize_t where
  | FRAMESIZE_INVALID
  | FRAMESIZE_QQCIF
  | FRAMESIZE_QCIF
  | FRAMESIZE_CIF
  | FRAMESIZE_QQSIF
  | FRAMESIZE_QSIF
  | FRAMESIZE_SIF
  | FRAMESIZE_QQQQVGA
  | FRAMESIZE_QQQVGA
  | FRAMESIZE_QQVGA
  | FRAMESIZE_QVGA
  | FRAMESIZE_VGA
  | FRAMESIZE_HQQQQVGA
  | FRAMESIZE_HQQQVGA
  | FRAMESIZE_HQQVGA
  | FRAMESIZE_HQVGA
  | FRAMESIZE_HVGA
  | FRAMESIZE_64X32
  | FRAMESIZE_64X64
  | FRAMESIZE_128X64
  | FRAMESIZE_128X128
  | FRAMESIZE_160X160
  | FRAMESIZE_320X320
  | FRAMESIZE_LCD
  | FRAMESIZE_QQVGA2
  | FRAMESIZE_WVGA
  | FRAMESIZE_WVGA2
  | FRAMESIZE_SVGA
  | FRAMESIZE_XGA
  | FRAMESIZE_WXGA
  | FRAMESIZE_SXGA
  | FRAMESIZE_SXGAM
  | FRAMESIZE_UXGA
  | FRAMESIZE_HD
  | FRAMESIZE_FHD
  | FRAMESIZE_QHD
  | FRAMESIZE_QXGA
  | FRAMESIZE_WQXGA
  | FRAMESIZE_WQXGA2
deriving DecidableEq, Fintype

/-- The resolution table (`extern uint16_t resolution[][2]`), with the
width and height each enumerator's comment records in `sensor.h`. -/
def resolution : framesize_t → Nat × Nat
  | .FRAMESIZE_INVALID => (0, 0)
  | .FRAMESIZE_QQCIF => (88, 72)
  | .FRAMESIZE_QCIF => (176, 144)
  | .FRAMESIZE_CIF => (352, 288)
  | .FRAMESIZE_QQSIF => (88, 60)
  | .FRAMESIZE_QSIF => (176, 120)
  | .FRAMESIZE_SIF => (352, 240)
  | .FRAMESIZE_QQQQVGA => (40, 30)
  | .FRAMESIZE_QQQVGA => (80, 60)
  | .FRAMESIZE_QQVGA => (160, 120)
  | .FRAMESIZE_QVGA => (320, 240)
  | .FRAMESIZE_VGA => (640, 480)
  | .FRAMESIZE_HQQQQVGA => (30, 20)
  | .FRAMESIZE_HQQQVGA => (60, 40)
  | .FRAMESIZE_HQQVGA => (120, 80)
  | .FRAMESIZE_HQVGA => (240, 160)
  | .FRAMESIZE_HVGA => (480, 320)
  | .FRAMESIZE_64X32 => (64, 32)
  | .FRAMESIZE_64X64 => (64, 64)
  | .FRAMESIZE_128X64 => (128, 64)
  | .FRAMESIZE_128X128 => (128, 128)
  | .FRAMESIZE_160X160 => (160, 160)
  | .FRAMESIZE_320X320 => (320, 320)
  | .FRAMESIZE_LCD => (128, 160)
  | .FRAMESIZE_QQVGA2 => (128, 160)
  | .FRAMESIZE_WVGA => (720, 480)
  | .FRAMESIZE_WVGA2 => (752, 480)
  | .FRAMESIZE_SVGA => (800, 600)
  | .FRAMESIZE_XGA => (1024, 768)
  | .FRAMESIZE_WXGA => (1280, 768)
  | .FRAMESIZE_SXGA => (1280, 1024)
  | .FRAMESIZE_SXGAM => (1280, 960)
  | .FRAMESIZE_UXGA => (1600, 1200)
  | .FRAMESIZE_HD => (1280, 720)
  | .FRAMESIZE_FHD => (1920, 1080)
  | .FRAMESIZE_QHD => (2560, 1440)
  | .FRAMESIZE_QXGA => (2048, 1536)
  | .FRAMESIZE_WQXGA => (2560, 1600)
  | .FRAMESIZE_WQXGA2 => (2592, 1944)

/-- The position of each frame size in the `framesize_t` enumeration. -/
def framesizeIndex : framesize_t → Nat
  | .FRAMESIZE_INVALID => 0
  | .FRAMESIZE_QQCIF => 1
  | .FRAMESIZE_QCIF => 2
  | .FRAMESIZE_CIF => 3
  | .FRAMESIZE_QQSIF => 4
  | .FRAMESIZE_QSIF => 5
  | .FRAMESIZE_SIF => 6
  | .FRAMESIZE_QQQQVGA => 7
  | .FRAMESIZE_QQQVGA => 8
  | .FRAMESIZE_QQVGA => 9
  | .FRAMESIZE_QVGA => 10
  | .FRAMESIZE_VGA => 11
  | .FRAMESIZE_HQQQQVGA => 12
  | .FRAMESIZE_HQQQVGA => 13
  | .FRAMESIZE_HQQVGA => 14
  | .FRAMESIZE_HQVGA => 15
  | .FRAMESIZE_HVGA => 16
  | .FRAMESIZE_64X32 => 17
  | .FRAMESIZE_64X64 => 18
  | .FRAMESIZE_128X64 => 19
  | .FRAMESIZE_128X128 => 20
  | .FRAMESIZE_160X160 => 21
  | .FRAMESIZE_320X320 => 22
  | .FRAMESIZE_LCD => 23
  | .FRAMESIZE_QQVGA2 => 24
  | .FRAMESIZE_WVGA => 25
  | .FRAMESIZE_WVGA2 => 26
  | .FRAMESIZE_SVGA => 27
  | .FRAMESIZE_XGA => 28
  | .FRAMESIZE_WXGA => 29
  | .FRAMESIZE_SXGA => 30
  | .FRAMESIZE_SXGAM => 31
  | .FRAMESIZE_UXGA => 32
  | .FRAMESIZE_HD => 33
  | .FRAMESIZE_FHD => 34
  | .FRAMESIZE_QHD => 35
  | .FRAMESIZE_QXGA => 36
  | .FRAMESIZE_WQXGA => 37
  | .FRAMESIZE_WQXGA2 => 38

/-- The enumeration in declaration order, the fixed ordering table the
frame-buffer fitting algorithm steps down through. -/
def framesizeTable : List framesize_t :=
  [.FRAMESIZE_INVALID, .FRAMESIZE_QQCIF, .FRAMESIZE_QCIF, .FRAMESIZE_CIF,
   .FRAMESIZE_QQSIF, .FRAMESIZE_QSIF, .FRAMESIZE_SIF, .FRAMESIZE_QQQQVGA,
   .FRAMESIZE_QQQVGA, .FRAMESIZE_QQVGA, .FRAMESIZE_QVGA, .FRAMESIZE_VGA,
   .FRAMESIZE_HQQQQVGA, .FRAMESIZE_HQQQVGA, .FRAMESIZE_HQQVGA, .FRAMESIZE_HQVGA,
   .FRAMESIZE_HVGA, .FRAMESIZE_64X32, .FRAMESIZE_64X64, .FRAMESIZE_128X64,
   .FRAMESIZE_128X128, .FRAMESIZE_160X160, .FRAMESIZE_320X320, .FRAMESIZE_LCD,
   .FRAMESIZE_QQVGA2, .FRAMESIZE_WVGA, .FRAMESIZE_WVGA2, .FRAMESIZE_SVGA,
   .FRAMESIZE_XGA, .FRAMESIZE_WXGA, .FRAMESIZE_SXGA, .FRAMESIZE_SXGAM,
   .FRAMESIZE_UXGA, .FRAMESIZE_HD, .FRAMESIZE_FHD, .FRAMESIZE_QHD,
   .FRAMESIZE_QXGA, .FRAMESIZE_WQXGA, .FRAMESIZE_WQXGA2]

/-! ## Small enumerations (`sensor.h` lines 132-163) -/

inductive gainceiling_t where
  | GAINCEILING_2X
  | GAINCEILING_4X
  | GAINCEILING_8X
  | GAINCEILING_16X
  | GAINCEILING_32X
  | GAINCEILING_64X
  | GAINCEILING_128X
deriving DecidableEq

inductive sde_t where
  | SDE_NORMAL
  | SDE_NEGATIVE
deriving DecidableEq

/-! ## IOCTL request codes (`sensor.h` lines 165-200) -/

def SENSOR_IOCTL_ABORT : Nat := 1 <<< 8

inductive ioctl_t where
  | IOCTL_SET_READOUT_WINDOW
  | IOCTL_GET_READOUT_WINDOW
  | IOCTL_SET_TRIGGERED_MODE
  | IOCTL_GET_TRIGGERED_MODE
  | IOCTL_SET_FOV_WIDE
  | IOCTL_GET_FOV_WIDE
  | IOCTL_TRIGGER_AUTO_FOCUS
  | IOCTL_PAUSE_AUTO_FOCUS
  | IOCTL_RESET_AUTO_FOCUS
  | IOCTL_WAIT_ON_AUTO_FOCUS
  | IOCTL_SET_NIGHT_MODE
  | IOCTL_GET_NIGHT_MODE
  | IOCTL_LEPTON_GET_WIDTH
  | IOCTL_LEPTON_GET_HEIGHT
  | IOCTL_LEPTON_GET_RADIOMETRY
  | IOCTL_LEPTON_GET_REFRESH
  | IOCTL_LEPTON_GET_RESOLUTION
  | IOCTL_LEPTON_RUN_COMMAND
  | IOCTL_LEPTON_SET_ATTRIBUTE
  | IOCTL_LEPTON_GET_ATTRIBUTE
  | IOCTL_LEPTON_GET_FPA_TEMPERATURE
  | IOCTL_LEPTON_GET_AUX_TEMPERATURE
  | IOCTL_LEPTON_SET_MEASUREMENT_MODE
  | IOCTL_LEPTON_GET_MEASUREMENT_MODE
  | IOCTL_LEPTON_SET_MEASUREMENT_RANGE
  | IOCTL_LEPTON_GET_MEASUREMENT_RANGE
  | IOCTL_HIMAX_MD_ENABLE
  | IOCTL_HIMAX_MD_CLEAR
  | IOCTL_HIMAX_MD_WINDOW
  | IOCTL_HIMAX_MD_THRESHOLD
  | IOCTL_HIMAX_OSC_ENABLE
  | IOCTL_GET_RGB_STATS
deriving DecidableEq, Fintype

/-- The numeric value of each `ioctl_t` enumerator, exactly as `sensor.h`
writes it (five codes carry `SENSOR_IOCTL_ABORT` or-ed in). -/
def ioctlCode : ioctl_t → Nat
  | .IOCTL_SET_READOUT_WINDOW => 0x00 ||| SENSOR_IOCTL_ABORT
  | .IOCTL_GET_READOUT_WINDOW => 0x01
  | .IOCTL_SET_TRIGGERED_MODE => 0x02
  | .IOCTL_GET_TRIGGERED_MODE => 0x03
  | .IOCTL_SET_FOV_WIDE => 0x04
  | .IOCTL_GET_FOV_WIDE => 0x05
  | .IOCTL_TRIGGER_AUTO_FOCUS => 0x06
  | .IOCTL_PAUSE_AUTO_FOCUS => 0x07
  | .IOCTL_RESET_AUTO_FOCUS => 0x08
  | .IOCTL_WAIT_ON_AUTO_FOCUS => 0x09
  | .IOCTL_SET_NIGHT_MODE => 0x0A
  | .IOCTL_GET_NIGHT_MODE => 0x0B
  | .IOCTL_LEPTON_GET_WIDTH => 0x0C
  | .IOCTL_LEPTON_GET_HEIGHT => 0x0D
  | .IOCTL_LEPTON_GET_RADIOMETRY => 0x0E
  | .IOCTL_LEPTON_GET_REFRESH => 0x0F
  | .IOCTL_LEPTON_GET_RESOLUTION => 0x10
  | .IOCTL_LEPTON_RUN_COMMAND => 0x11
  | .IOCTL_LEPTON_SET_ATTRIBUTE => 0x12
  | .IOCTL_LEPTON_GET_ATTRIBUTE => 0x13
  | .IOCTL_LEPTON_GET_FPA_TEMPERATURE => 0x14
  | .IOCTL_LEPTON_GET_AUX_TEMPERATURE => 0x15
  | .IOCTL_LEPTON_SET_MEASUREMENT_MODE => 0x16 ||| SENSOR_IOCTL_ABORT
  | .IOCTL_LEPTON_GET_MEASUREMENT_MODE => 0x17
  | .IOCTL_LEPTON_SET_MEASUREMENT_RANGE => 0x18 ||| SENSOR_IOCTL_ABORT
  | .IOCTL_LEPTON_GET_MEASUREMENT_RANGE => 0x19
  | .IOCTL_HIMAX_MD_ENABLE => 0x1A
  | .IOCTL_HIMAX_MD_CLEAR => 0x1B
  | .IOCTL_HIMAX_MD_WINDOW => 0x1C ||| SENSOR_IOCTL_ABORT
  | .IOCTL_HIMAX_MD_THRESHOLD => 0x1D
  | .IOCTL_HIMAX_OSC_ENABLE => 0x1E ||| SENSOR_IOCTL_ABORT
  | .IOCTL_GET_RGB_STATS => 0x1F

/-- Whether a request code carries the static abort tag. -/
def ioctlAborts (r : ioctl_t) : Bool :=
  ioctlCode r &&& SENSOR_IOCTL_ABORT != 0

/-- A request code with the `SENSOR_IOCTL_ABORT` bit (bit 8) masked off,
as `code & ~SENSOR_IOCTL_ABORT` does on a 32-bit value. -/
def ioctlStripAbort (code : Nat) : Nat := code &&& 0xFFFFFEFF

/-! ## Error taxonomy `sensor_error_t` (`sensor.h` lines 202-224) -/

inductive sensor_error_t where
  | SENSOR_ERROR_NO_ERROR
  | SENSOR_ERROR_CTL_FAILED
  | SENSOR_ERROR_CTL_UNSUPPORTED
  | SENSOR_ERROR_ISC_UNDETECTED
  | SENSOR_ERROR_ISC_UNSUPPORTED
  | SENSOR_ERROR_ISC_INIT_FAILED
  | SENSOR_ERROR_TIM_INIT_FAILED
  | SENSOR_ERROR_DMA_INIT_FAILED
  | SENSOR_ERROR_CSI_INIT_FAILED
  | SENSOR_ERROR_IO_ERROR
  | SENSOR_ERROR_CAPTURE_FAILED
  | SENSOR_ERROR_CAPTURE_TIMEOUT
  | SENSOR_ERROR_INVALID_FRAMESIZE
  | SENSOR_ERROR_INVALID_PIXFORMAT
  | SENSOR_ERROR_INVALID_WINDOW
  | SENSOR_ERROR_INVALID_FRAMERATE
  | SENSOR_ERROR_INVALID_ARGUMENT
  | SENSOR_ERROR_PIXFORMAT_UNSUPPORTED
  | SENSOR_ERROR_FRAMEBUFFER_ERROR
  | SENSOR_ERROR_FRAMEBUFFER_OVERFLOW
  | SENSOR_ERROR_JPEG_OVERFLOW
deriving DecidableEq, Fintype

/-- The integer value `sensor.h` assigns to each error code. -/
def sensorErrorCode : sensor_error_t → Int
  | .SENSOR_ERROR_NO_ERROR => 0
  | .SENSOR_ERROR_CTL_FAILED => -1
  | .SENSOR_ERROR_CTL_UNSUPPORTED => -2
  | .SENSOR_ERROR_ISC_UNDETECTED => -3
  | .SENSOR_ERROR_ISC_UNSUPPORTED => -4
  | .SENSOR_ERROR_ISC_INIT_FAILED => -5
  | .SENSOR_ERROR_TIM_INIT_FAILED => -6
  | .SENSOR_ERROR_DMA_INIT_FAILED => -7
  | .SENSOR_ERROR_CSI_INIT_FAILED => -8
  | .SENSOR_ERROR_IO_ERROR => -9
  | .SENSOR_ERROR_CAPTURE_FAILED => -10
  | .SENSOR_ERROR_CAPTURE_TIMEOUT => -11
  | .SENSOR_ERROR_INVALID_FRAMESIZE => -12
  | .SENSOR_ERROR_INVALID_PIXFORMAT => -13
  | .SENSOR_ERROR_INVALID_WINDOW => -14
  | .SENSOR_ERROR_INVALID_FRAMERATE => -15
  | .SENSOR_ERROR_INVALID_ARGUMENT => -16
  | .SENSOR_ERROR_PIXFORMAT_UNSUPPORTED => -17
  | .SENSOR_ERROR_FRAMEBUFFER_ERROR => -18
  | .SENSOR_ERROR_FRAMEBUFFER_OVERFLOW => -19
  | .SENSOR_ERROR_JPEG_OVERFLOW => -20

/-! ## Configuration-change flags `sensor_config_t` (`sensor.h` lines 226-231) -/

def SENSOR_CONFIG_INIT : Nat := 1 <<< 0
def SENSOR_CONFIG_FRAMESIZE : Nat := 1 <<< 1
def SENSOR_CONFIG_PIXFORMAT : Nat := 1 <<< 2
def SENSOR_CONFIG_WINDOWING : Nat := 1 <<< 3

/-! ## Pixel formats and frame-buffer fitting -/

/-- Modelled from the spec: `pixformat_t` lives in `imlib.h`, which is not
among the repository's files.  §4.3 and the §8 scenario fix the per-pixel
byte sizes the fitting algorithm needs: RGB565 is two bytes per pixel, the
raw/Bayer fallback is one byte per pixel, grayscale one byte, YUV422 two. -/
inductive pixformat_t where
  | PIXFORMAT_GRAYSCALE
  | PIXFORMAT_RGB565
  | PIXFORMAT_BAYER
  | PIXFORMAT_YUV422
deriving DecidableEq

/-- Modelled from the spec: `sensor_get_dst_bpp` (bytes per pixel written to
memory); its body is not among the repository's files. -/
def sensor_get_dst_bpp : pixformat_t → Nat
  | .PIXFORMAT_GRAYSCALE => 1
  | .PIXFORMAT_RGB565 => 2
  | .PIXFORMAT_BAYER => 1
  | .PIXFORMAT_YUV422 => 2

/-- A capture window: a sub-rectangle of the declared frame size. -/
structure Window where
  x : Nat
  y : Nat
  w : Nat
  h : Nat
deriving DecidableEq

/-- The full-frame window of a standard frame size. -/
def fullWindow (fs : framesize_t) : Window :=
  { x := 0, y := 0, w := (resolution fs).1, h := (resolution fs).2 }

/-- The logical (format, size, window) tuple the fitting algorithm works on. -/
structure FrameConfig where
  pixformat : pixformat_t
  framesize : framesize_t
  window : Window
deriving DecidableEq

/-- Per-frame byte size: `width × height × bytes_per_pixel(format)` (§4.3),
width and height being those of the selected window. -/
def bytes_per_frame (c : FrameConfig) : Nat :=
  c.window.w * c.window.h * sensor_get_dst_bpp c.pixformat

/-- Modelled from the spec: `sensor_check_framebuffer_size` returns whether
the current frame fits the fixed memory pool (§4.3); its body is not among
the repository's files.  `cap` is the frame-buffer pool capacity in bytes. -/
def sensor_check_framebuffer_size (cap : Nat) (c : FrameConfig) : Bool :=
  decide (bytes_per_frame c ≤ cap)

/-- One window-shrinking pass: halve the larger window dimension until the
frame fits or the window cannot shrink further.  Fuel bounds the recursion;
`w + h` passes always suffice. -/
def shrinkWindowAux (cap bpp : Nat) : Nat → Nat → Nat → Nat × Nat
  | 0, w, h => (w, h)
  | fuel + 1, w, h =>
    if w * h * bpp ≤ cap then (w, h)
    else if h ≤ w ∧ 1 < w then shrinkWindowAux cap bpp fuel (w / 2) h
    else if 1 < h then shrinkWindowAux cap bpp fuel w (h / 2)
    else (w, h)

/-- The standard frame sizes strictly below `fs` in the fixed ordering
table, largest index first (`FRAMESIZE_INVALID` excluded). -/
def smallerFramesizes (fs : framesize_t) : List framesize_t :=
  (framesizeTable.filter (fun g =>
    decide (framesizeIndex g < framesizeIndex fs) &&
    (g != framesize_t.FRAMESIZE_INVALID))).reverse

/-- The first smaller standard frame size whose full frame fits the pool,
keeping the current pixel format. -/
def fallbackFramesize (cap : Nat) (c : FrameConfig) : Option framesize_t :=
  (smallerFramesizes c.framesize).find? (fun g =>
    sensor_check_framebuffer_size cap
      { c with framesize := g, window := fullWindow g })

/-- Modelled from the spec: `sensor_auto_crop_framebuffer`; its body is not
among the repository's files.  §4.3: degrade deterministically — shrink the
window without changing the declared frame size first, then fall back to the
next smaller standard frame size in the fixed ordering table, and as a last
resort force the pixel format to the most compact raw/Bayer representation;
fail with `FRAMEBUFFER_OVERFLOW` when no smaller option remains. -/
def sensor_auto_crop_framebuffer (cap : Nat) (c : FrameConfig) :
    Except sensor_error_t FrameConfig :=
  if sensor_check_framebuffer_size cap c then Except.ok c
  else
    let bpp := sensor_get_dst_bpp c.pixformat
    let wh := shrinkWindowAux cap bpp (c.window.w + c.window.h) c.window.w c.window.h
    let c1 : FrameConfig := { c with window := { c.window with w := wh.1, h := wh.2 } }
    if sensor_check_framebuffer_size cap c1 then Except.ok c1
    else
      match fallbackFramesize cap c with
      | some g => Except.ok { c with framesize := g, window := fullWindow g }
      | none =>
        let wh2 := shrinkWindowAux cap 1 (c.window.w + c.window.h) c.window.w c.window.h
        let c3 : FrameConfig :=
          { c with pixformat := pixformat_t.PIXFORMAT_BAYER,
                   window := { c.window with w := wh2.1, h := wh2.2 } }
        if sensor_check_framebuffer_size cap c3 then Except.ok c3
        else Except.error sensor_error_t.SENSOR_ERROR_FRAMEBUFFER_OVERFLOW

/-- Modelled from the spec: `sensor_config`; its body is not among the
repository's files.  §2: the Configuration Reconciler re-validates buffer
fit after every change; §4.2 step 4: it invokes the Frame-Buffer Fitting
Algorithm whenever `FRAMESIZE` or `PIXFORMAT` is raised, before returning
success — callers never observe an over-capacity configuration. -/
def sensor_config (cap flags : Nat) (c : FrameConfig) :
    Except sensor_error_t FrameConfig :=
  if sensor_check_framebuffer_size cap c then Except.ok c
  else if flags &&& (SENSOR_CONFIG_FRAMESIZE ||| SENSOR_CONFIG_PIXFORMAT) != 0 then
    sensor_auto_crop_framebuffer cap c
  else Except.error sensor_error_t.SENSOR_ERROR_FRAMEBUFFER_OVERFLOW

/-! ## Capture state machine, abort and the IOCTL channel -/

/-- The capture states of §4.4:
`Idle → Configuring → Armed → Capturing → Complete | Aborted | Failed`. -/
inductive CaptureState where
  | Idle
  | Configuring
  | Armed
  | Capturing
  | Complete
  | Aborted
  | Failed
deriving DecidableEq, Fintype

/-- The capture machine: the current state plus any partially-applied
configuration change (the ephemeral reconciliation bitmask of §3). -/
structure CaptureMachine where
  state : CaptureState
  pendingConfig : Option Nat
deriving DecidableEq

/-- Modelled from the spec: `sensor_abort`; its body is not among the
repository's files.  §4.4: it forces any state back to `Idle`; §5: it must
leave the Capability Record in `Idle` with no partially-applied
configuration.  The two parameters mirror `sensor_abort(bool fifo_flush,
bool in_irq)`. -/
def sensor_abort (fifo_flush in_irq : Bool) (m : CaptureMachine) : CaptureMachine :=
  { state := CaptureState.Idle, pendingConfig := none }

/-- Modelled from the spec: the state a snapshot request begins from.  §4.4
starts every capture request at `Idle`; a request finding the machine in any
other state cannot begin. -/
def snapshot_begin (m : CaptureMachine) : Option CaptureMachine :=
  match m.state with
  | CaptureState.Idle => some { m with state := CaptureState.Configuring }
  | _ => none

/-- What one IOCTL dispatch did: the machine afterwards, whether the abort
path ran, and whether the request reached the driver. -/
structure IoctlOutcome where
  machine : CaptureMachine
  abortCalled : Bool
  forwarded : Bool
deriving DecidableEq

/-- Modelled from the spec: `sensor_ioctl`; its body is not among the
repository's files.  §4.5: the channel must call the abort path before
forwarding the request whenever the request code carries the static abort
tag, and forwards it directly otherwise. -/
def sensor_ioctl (r : ioctl_t) (m : CaptureMachine) : IoctlOutcome :=
  if ioctlAborts r then
    { machine := sensor_abort true false m, abortCalled := true, forwarded := true }
  else
    { machine := m, abortCalled := false, forwarded := true }

/-! ## Capability dispatch table and the configuration setters -/

/-- The logical state the configuration setters mutate (the Sensor state
block of `sensor_t`, `sensor.h` lines 266-280). -/
structure LogicalState where
  sde : sde_t
  pixformat : pixformat_t
  framesize : framesize_t
  framerate : Int
  gainceiling : gainceiling_t
  hmirror : Bool
  vflip : Bool
  lens_correction : Bool
deriving DecidableEq

/-- The optional per-chip entries of the dispatch table that back the
configuration setters (`sensor_t` function pointers, `sensor.h` lines
284-312).  Each present entry abstracts the chip's register programming as
a success/failure outcome. -/
structure DispatchTable where
  set_pixformat : Option (pixformat_t → Bool)
  set_framesize : Option (framesize_t → Bool)
  set_framerate : Option (Int → Bool)
  set_gainceiling : Option (gainceiling_t → Bool)
  set_hmirror : Option (Bool → Bool)
  set_vflip : Option (Bool → Bool)
  set_special_effect : Option (sde_t → Bool)
  set_lens_correction : Option (Bool → Int → Int → Bool)

/-- Modelled from the spec: `sensor_set_pixformat`; its body is not among
the repository's files.  §4.2: delegate to the dispatch-table entry if
present — absence yields `CTL_UNSUPPORTED` without mutating logical state;
on success update logical state. -/
def sensor_set_pixformat (d : DispatchTable) (v : pixformat_t) (s : LogicalState) :
    sensor_error_t × LogicalState :=
  match d.set_pixformat with
  | none => (sensor_error_t.SENSOR_ERROR_CTL_UNSUPPORTED, s)
  | some f =>
    if f v then (sensor_error_t.SENSOR_ERROR_NO_ERROR, { s with pixformat := v })
    else (sensor_error_t.SENSOR_ERROR_CTL_FAILED, s)

/-- Modelled from the spec: `sensor_set_framesize`, as `sensor_set_pixformat`. -/
def sensor_set_framesize (d : DispatchTable) (v : framesize_t) (s : LogicalState) :
    sensor_error_t × LogicalState :=
  match d.set_framesize with
  | none => (sensor_error_t.SENSOR_ERROR_CTL_UNSUPPORTED, s)
  | some f =>
    if f v then (sensor_error_t.SENSOR_ERROR_NO_ERROR, { s with framesize := v })
    else (sensor_error_t.SENSOR_ERROR_CTL_FAILED, s)

/-- Modelled from the spec: `sensor_set_framerate`, as `sensor_set_pixformat`. -/
def sensor_set_framerate (d : DispatchTable) (v : Int) (s : LogicalState) :
    sensor_error_t × LogicalState :=
  match d.set_framerate with
  | none => (sensor_error_t.SENSOR_ERROR_CTL_UNSUPPORTED, s)
  | some f =>
    if f v then (sensor_error_t.SENSOR_ERROR_NO_ERROR, { s with framerate := v })
    else (sensor_error_t.SENSOR_ERROR_CTL_FAILED, s)

/-- Modelled from the spec: `sensor_set_gainceiling`, as `sensor_set_pixformat`. -/
def sensor_set_gainceiling (d : DispatchTable) (v : gainceiling_t) (s : LogicalState) :
    sensor_error_t × LogicalState :=
  match d.set_gainceiling with
  | none => (sensor_error_t.SENSOR_ERROR_CTL_UNSUPPORTED, s)
  | some f =>
    if f v then (sensor_error_t.SENSOR_ERROR_NO_ERROR, { s with gainceiling := v })
    else (sensor_error_t.SENSOR_ERROR_CTL_FAILED, s)

/-- Modelled from the spec: `sensor_set_hmirror`, as `sensor_set_pixformat`. -/
def sensor_set_hmirror (d : DispatchTable) (v : Bool) (s : LogicalState) :
    sensor_error_t × LogicalState :=
  match d.set_hmirror with
  | none => (sensor_error_t.SENSOR_ERROR_CTL_UNSUPPORTED, s)
  | some f =>
    if f v then (sensor_error_t.SENSOR_ERROR_NO_ERROR, { s with hmirror := v })
    else (sensor_error_t.SENSOR_ERROR_CTL_FAILED, s)

/-- Modelled from the spec: `sensor_set_vflip`, as `sensor_set_pixformat`. -/
def sensor_set_vflip (d : DispatchTable) (v : Bool) (s : LogicalState) :
    sensor_error_t × LogicalState :=
  match d.set_vflip with
  | none => (sensor_error_t.SENSOR_ERROR_CTL_UNSUPPORTED, s)
  | some f =>
    if f v then (sensor_error_t.SENSOR_ERROR_NO_ERROR, { s with vflip := v })
    else (sensor_error_t.SENSOR_ERROR_CTL_FAILED, s)

/-- Modelled from the spec: `sensor_set_special_effect`, as `sensor_set_pixformat`. -/
def sensor_set_special_effect (d : DispatchTable) (v : sde_t) (s : LogicalState) :
    sensor_error_t × LogicalState :=
  match d.set_special_effect with
  | none => (sensor_error_t.SENSOR_ERROR_CTL_UNSUPPORTED, s)
  | some f =>
    if f v then (sensor_error_t.SENSOR_ERROR_NO_ERROR, { s with sde := v })
    else (sensor_error_t.SENSOR_ERROR_CTL_FAILED, s)

/-- Modelled from the spec: `sensor_set_lens_correction`, as `sensor_set_pixformat`. -/
def sensor_set_lens_correction (d : DispatchTable) (enable : Bool) (radi coef : Int)
    (s : LogicalState) : sensor_error_t × LogicalState :=
  match d.set_lens_correction with
  | none => (sensor_error_t.SENSOR_ERROR_CTL_UNSUPPORTED, s)
  | some f =>
    if f enable radi coef then
      (sensor_error_t.SENSOR_ERROR_NO_ERROR, { s with lens_correction := enable })
    else (sensor_error_t.SENSOR_ERROR_CTL_FAILED, s)

/-! ## Frame-rate throttling -/

/-- The throttling-relevant slice of `sensor_t` (`sensor.h` lines 263-274):
the configured frame rate, the drop-next-frame flag, the last sampled frame
timestamp with its validity flag, and whether a frame callback is set. -/
structure ThrottleState where
  framerate : Nat
  drop_frame : Bool
  last_frame_ms : Nat
  last_frame_ms_valid : Bool
  frame_callback : Bool
deriving DecidableEq

/-- The capture period in milliseconds implied by a configured frame rate. -/
def framePeriodMs (framerate : Nat) : Nat := 1000 / framerate

/-- Modelled from the spec: `sensor_throttle_framerate`; its body is not
among the repository's files.  §4.4: if the elapsed time since
`last_frame_ms` is less than the period implied by the configured frame
rate, the next frame is marked to be dropped (`drop_frame = true`). -/
def sensor_throttle_framerate (now : Nat) (s : ThrottleState) : ThrottleState :=
  if s.last_frame_ms_valid = true ∧ 0 < s.framerate ∧
      now - s.last_frame_ms < framePeriodMs s.framerate then
    { s with drop_frame := true }
  else s

/-- Modelled from the spec: §4.4 — a frame marked dropped is not delivered;
the orchestrator waits for the following frame instead. -/
def frame_delivered (s : ThrottleState) : Bool := !s.drop_frame

/-- Modelled from the spec: §4.4 — the frame callback fires only when a
callback is registered and the frame is actually delivered; no frame
callback fires for a dropped frame. -/
def frame_callback_fires (s : ThrottleState) : Bool :=
  s.frame_callback && !s.drop_frame

/-! ## Error-to-string mapping -/

/-- Modelled from the spec: the diagnostic-string table behind
`sensor_strerror`; its body is not among the repository's files.  §6: the
mapping is total over `sensor_error_t` — every defined code has exactly one
stable, non-empty, distinct string.  Entry `i` describes the code `-i`. -/
def sensorErrorStrings : List String :=
  ["No error",
   "Sensor control failed",
   "Sensor control not supported",
   "Sensor not detected",
   "Sensor not supported",
   "Sensor init failed",
   "Timer init failed",
   "DMA init failed",
   "CSI init failed",
   "I/O error",
   "Capture failed",
   "Capture timeout",
   "Invalid frame size",
   "Invalid pixel format",
   "Invalid window",
   "Invalid frame rate",
   "Invalid argument",
   "Pixel format not supported",
   "Frame buffer error",
   "Frame buffer overflow",
   "JPEG overflow"]

/-- Modelled from the spec: `sensor_strerror(int error)`; its body is not
among the repository's files.  It indexes the string table at `-error` and
answers a fallback text for any value outside the defined taxonomy. -/
def sensor_strerror (error : Int) : String :=
  if error ≤ 0 then sensorErrorStrings.getD (-error).toNat "Unknown error"
  else "Unknown error"

/-! ## Detection / binding -/

/-- The family of known slave addresses (`sensor.h` lines 32-43). -/
def knownSlaveAddrs : List Nat :=
  [OV2640_SLV_ADDR, OV5640_SLV_ADDR, OV7725_SLV_ADDR, MT9V0XX_SLV_ADDR,
   MT9M114_SLV_ADDR, LEPTON_SLV_ADDR, HM0XX0_SLV_ADDR, GC2145_SLV_ADDR,
   GENX320_SLV_ADDR, FROGEYE2020_SLV_ADDR, PAG7920_SLV_ADDR, PAG7936_SLV_ADDR]

/-- The chip identifier values the header declares a driver profile for
(`sensor.h` lines 54-83). -/
def knownChipIds : List Nat :=
  [OV2640_ID, OV5640_ID, OV7670_ID, OV7690_ID, OV7725_ID, OV9650_ID,
   MT9V0X2_ID_V_1, MT9V0X2_ID_V_2, MT9V0X2_ID, MT9V0X2_C_ID,
   MT9V0X4_ID, MT9V0X4_C_ID, MT9M114_ID,
   LEPTON_ID, LEPTON_1_5, LEPTON_1_6, LEPTON_2_0, LEPTON_2_5,
   LEPTON_3_0, LEPTON_3_5,
   HM01B0_ID, HM0360_ID, GC2145_ID, GENX320_ID_ES, GENX320_ID_MP,
   PAG7920_ID, PAG7936_ID, PAJ6100_ID, FROGEYE2020_ID]

/-- Modelled from the spec: `sensor_probe_init`; its body is not among the
repository's files.  §4.1: scan the known chip-identifier registers at the
family of known slave addresses; fail with `ISC_UNDETECTED` if no address
answers, `ISC_UNSUPPORTED` if an identifier is read but matches no known
driver, `ISC_INIT_FAILED` if the matched driver's own reset sequence fails;
otherwise bind.  The bus is modelled as a response map from slave address to
the chip identifier a device there answers, and `resetOk` as the outcome of
the matched driver's reset sequence. -/
def sensor_probe_init (bus : Nat → Option Nat) (resetOk : Bool) :
    Except sensor_error_t Nat :=
  match knownSlaveAddrs.find? (fun a => (bus a).isSome) with
  | none => Except.error sensor_error_t.SENSOR_ERROR_ISC_UNDETECTED
  | some a =>
    match bus a with
    | none => Except.error sensor_error_t.SENSOR_ERROR_ISC_UNDETECTED
    | some id =>
      if id ∈ knownChipIds then
        if resetOk then Except.ok id
        else Except.error sensor_error_t.SENSOR_ERROR_ISC_INIT_FAILED
      else Except.error sensor_error_t.SENSOR_ERROR_ISC_UNSUPPORTED

/-! ## Theorems -/

/-- Every configuration the fitting algorithm returns successfully fits the
frame-buffer pool. -/
theorem auto_crop_ok_fits (cap : Nat) (c c' : FrameConfig)
    (h : sensor_auto_crop_framebuffer cap c = Except.ok c') :
    sensor_check_framebuffer_size cap c' = true := by
  unfold sensor_auto_crop_framebuffer at h
  split at h
  case isTrue hc =>
    cases h
    exact hc
  case isFalse hc =>
    simp only [] at h
    split at h
    case isTrue hc1 =>
      cases h
      exact hc1
    case isFalse hc1 =>
      split at h
      case h_1 g hg =>
        cases h
        unfold fallbackFramesize at hg
        have hp := List.find?_some hg
        exact hp
      case h_2 hg =>
        split at h
        case isTrue hc3 =>
          cases h
          exact hc3
        case isFalse hc3 =>
          exact Except.noConfusion h

/-- C1: for every (pixel format, frame size, window) tuple, whenever
`sensor_config` returns success the per-frame byte size
`width × height × bytes_per_pixel(format)` of the returned logical state is
at most the frame-buffer pool capacity, so no caller observes an
over-capacity configuration. -/
theorem sensor_config_success_fits (cap flags : Nat) (c c' : FrameConfig)
    (h : sensor_config cap flags c = Except.ok c') :
    bytes_per_frame c' ≤ cap := by
  unfold sensor_config at h
  split at h
  case isTrue hc =>
    cases h
    exact of_decide_eq_true hc
  case isFalse hc =>
    split at h
    case isTrue hflags =>
      exact of_decide_eq_true (auto_crop_ok_fits cap c c' h)
    case isFalse hflags =>
      exact Except.noConfusion h

/-- C1 witness: a QVGA RGB565 frame against a 1 MiB pool — `sensor_config`
succeeds and the resulting frame fits. -/
theorem sensor_config_success_fits_witness :
    bytes_per_frame
      { pixformat := pixformat_t.PIXFORMAT_RGB565,
        framesize := framesize_t.FRAMESIZE_QVGA,
        window := { x := 0, y := 0, w := 320, h := 240 } } ≤ 1048576 :=
  sensor_config_success_fits 1048576 6
    { pixformat := pixformat_t.PIXFORMAT_RGB565,
      framesize := framesize_t.FRAMESIZE_QVGA,
      window := { x := 0, y := 0, w := 320, h := 240 } }
    { pixformat := pixformat_t.PIXFORMAT_RGB565,
      framesize := framesize_t.FRAMESIZE_QVGA,
      window := { x := 0, y := 0, w := 320, h := 240 } }
    rfl

/-- C2: the error taxonomy is a closed set of exactly the named kinds —
`SENSOR_ERROR_NO_ERROR` equals 0, every other defined code is a strictly
negative integer, and the twenty-one codes are pairwise distinct. -/
theorem sensor_error_taxonomy_closed :
    sensorErrorCode sensor_error_t.SENSOR_ERROR_NO_ERROR = 0 ∧
    (∀ e : sensor_error_t,
      e ≠ sensor_error_t.SENSOR_ERROR_NO_ERROR → sensorErrorCode e < 0) ∧
    Function.Injective sensorErrorCode := by
  refine ⟨rfl, ?_, ?_⟩ <;> decide

/-- C3: the static abort tag is set on exactly five ioctl request codes —
`IOCTL_SET_READOUT_WINDOW`, `IOCTL_LEPTON_SET_MEASUREMENT_MODE`,
`IOCTL_LEPTON_SET_MEASUREMENT_RANGE`, `IOCTL_HIMAX_MD_WINDOW`,
`IOCTL_HIMAX_OSC_ENABLE` — and on no other value, and the IOCTL channel
calls the abort path before forwarding a request exactly when the tag is
set. -/
theorem ioctl_abort_tag_exactly_five (r : ioctl_t) (m : CaptureMachine) :
    ((sensor_ioctl r m).abortCalled = ioctlAborts r) ∧
    ((sensor_ioctl r m).abortCalled = true ↔
      (r = ioctl_t.IOCTL_SET_READOUT_WINDOW ∨
       r = ioctl_t.IOCTL_LEPTON_SET_MEASUREMENT_MODE ∨
       r = ioctl_t.IOCTL_LEPTON_SET_MEASUREMENT_RANGE ∨
       r = ioctl_t.IOCTL_HIMAX_MD_WINDOW ∨
       r = ioctl_t.IOCTL_HIMAX_OSC_ENABLE)) ∧
    ((sensor_ioctl r m).abortCalled = true →
      (sensor_ioctl r m).machine.state = CaptureState.Idle ∧
      (sensor_ioctl r m).forwarded = true) := by
  have habort : (sensor_ioctl r m).abortCalled = ioctlAborts r := by
    unfold sensor_ioctl
    split <;> simp_all
  refine ⟨habort, ?_, ?_⟩
  · rw [habort]
    clear habort
    revert r
    decide
  · intro ht
    have hr : ioctlAborts r = true := habort.symm.trans ht
    unfold sensor_ioctl
    rw [if_pos hr]
    exact ⟨rfl, rfl⟩

/-- C4: the fitting algorithm is deterministic (it is a function of its
inputs), monotonically non-increasing in the memory footprint of the
configuration it returns, and idempotent on any configuration that already
fits: such a configuration is returned with format, frame size and window
unchanged. -/
theorem auto_crop_monotone_idempotent (cap : Nat) (c c' : FrameConfig) :
    (sensor_auto_crop_framebuffer cap c = Except.ok c' →
      bytes_per_frame c' ≤ bytes_per_frame c) ∧
    (sensor_check_framebuffer_size cap c = true →
      sensor_auto_crop_framebuffer cap c = Except.ok c) := by
  constructor
  · intro h
    by_cases hc : sensor_check_framebuffer_size cap c = true
    · unfold sensor_auto_crop_framebuffer at h
      rw [if_pos hc] at h
      cases h
      exact le_refl _
    · have h1 : bytes_per_frame c' ≤ cap :=
        of_decide_eq_true (auto_crop_ok_fits cap c c' h)
      have h2 : ¬ bytes_per_frame c ≤ cap := fun hle => hc (decide_eq_true hle)
      exact le_of_lt (lt_of_le_of_lt h1 (Nat.lt_of_not_le h2))
  · intro hc
    unfold sensor_auto_crop_framebuffer
    rw [if_pos hc]

/-- C5: from every state of the capture state machine, `sensor_abort`
transitions to `Idle` and leaves no partially-applied configuration, so a
snapshot issued immediately afterwards always starts from `Idle`. -/
theorem abort_always_reaches_idle (f i : Bool) (m : CaptureMachine) :
    (sensor_abort f i m).state = CaptureState.Idle ∧
    (sensor_abort f i m).pendingConfig = none ∧
    snapshot_begin (sensor_abort f i m) =
      some { state := CaptureState.Configuring, pendingConfig := none } :=
  ⟨rfl, rfl, rfl⟩

/-- C6: for every configuration setter backed by a dispatch-table entry, an
absent entry makes the setter return `SENSOR_ERROR_CTL_UNSUPPORTED` with
the logical state entirely unchanged — no partial mutation, never a no-op
success. -/
theorem setters_unsupported_leave_state_unchanged (d : DispatchTable)
    (s : LogicalState) (pf : pixformat_t) (fs : framesize_t) (fr : Int)
    (g : gainceiling_t) (mb vb : Bool) (e : sde_t) (en : Bool) (radi coef : Int) :
    (d.set_pixformat = none →
      sensor_set_pixformat d pf s = (sensor_error_t.SENSOR_ERROR_CTL_UNSUPPORTED, s)) ∧
    (d.set_framesize = none →
      sensor_set_framesize d fs s = (sensor_error_t.SENSOR_ERROR_CTL_UNSUPPORTED, s)) ∧
    (d.set_framerate = none →
      sensor_set_framerate d fr s = (sensor_error_t.SENSOR_ERROR_CTL_UNSUPPORTED, s)) ∧
    (d.set_gainceiling = none →
      sensor_set_gainceiling d g s = (sensor_error_t.SENSOR_ERROR_CTL_UNSUPPORTED, s)) ∧
    (d.set_hmirror = none →
      sensor_set_hmirror d mb s = (sensor_error_t.SENSOR_ERROR_CTL_UNSUPPORTED, s)) ∧
    (d.set_vflip = none →
      sensor_set_vflip d vb s = (sensor_error_t.SENSOR_ERROR_CTL_UNSUPPORTED, s)) ∧
    (d.set_special_effect = none →
      sensor_set_special_effect d e s = (sensor_error_t.SENSOR_ERROR_CTL_UNSUPPORTED, s)) ∧
    (d.set_lens_correction = none →
      sensor_set_lens_correction d en radi coef s =
        (sensor_error_t.SENSOR_ERROR_CTL_UNSUPPORTED, s)) := by
  refine ⟨?_, ?_, ?_, ?_, ?_, ?_, ?_, ?_⟩ <;> intro h <;>
    simp [sensor_set_pixformat, sensor_set_framesize, sensor_set_framerate,
      sensor_set_gainceiling, sensor_set_hmirror, sensor_set_vflip,
      sensor_set_special_effect, sensor_set_lens_correction, h]

/-- C7: when the configured frame rate implies period P and a capture
request arrives less than P after `last_frame_ms`, the request marks the
next frame dropped (`drop_frame = true`); a dropped frame is not delivered
and no frame callback fires for it. -/
theorem throttle_drops_second_early_frame (now : Nat) (s : ThrottleState)
    (hv : s.last_frame_ms_valid = true) (hfr : 0 < s.framerate)
    (hlt : now - s.last_frame_ms < framePeriodMs s.framerate) :
    (sensor_throttle_framerate now s).drop_frame = true ∧
    frame_delivered (sensor_throttle_framerate now s) = false ∧
    frame_callback_fires (sensor_throttle_framerate now s) = false := by
  unfold sensor_throttle_framerate
  rw [if_pos ⟨hv, hfr, hlt⟩]
  refine ⟨rfl, rfl, ?_⟩
  simp [frame_callback_fires]

/-- C7 witness: at 30 fps (period 33 ms) a request 10 ms after the last
frame is dropped, undelivered, and fires no frame callback. -/
theorem throttle_drops_second_early_frame_witness :
    (sensor_throttle_framerate 10
      { framerate := 30, drop_frame := false, last_frame_ms := 0,
        last_frame_ms_valid := true, frame_callback := true }).drop_frame = true ∧
    frame_delivered (sensor_throttle_framerate 10
      { framerate := 30, drop_frame := false, last_frame_ms := 0,
        last_frame_ms_valid := true, frame_callback := true }) = false ∧
    frame_callback_fires (sensor_throttle_framerate 10
      { framerate := 30, drop_frame := false, last_frame_ms := 0,
        last_frame_ms_valid := true, frame_callback := true }) = false :=
  throttle_drops_second_early_frame 10
    { framerate := 30, drop_frame := false, last_frame_ms := 0,
      last_frame_ms_valid := true, frame_callback := true }
    rfl (by decide) (by decide)

/-- C8: `sensor_strerror` is total over the defined error codes and
injective on them — every defined code maps to a non-empty diagnostic
string distinct from every other code's string, and no defined code falls
through to the unknown-error default. -/
theorem strerror_total_injective :
    (∀ e : sensor_error_t,
      sensor_strerror (sensorErrorCode e) ≠ "" ∧
      sensor_strerror (sensorErrorCode e) ≠ "Unknown error") ∧
    (∀ a b : sensor_error_t,
      sensor_strerror (sensorErrorCode a) = sensor_strerror (sensorErrorCode b) →
        a = b) := by
  constructor <;> decide

/-- C9 counterexample: a bus whose only answering device reports the
unknown chip identifier 0x2021 makes `sensor_probe_init` return
`ISC_UNSUPPORTED`, not `ISC_UNDETECTED` as the claim states. -/
theorem probe_unknown_id_not_undetected :
    sensor_probe_init (fun a => if a = 0x48 then some 0x2021 else none) true
      = Except.error sensor_error_t.SENSOR_ERROR_ISC_UNSUPPORTED ∧
    (Except.error sensor_error_t.SENSOR_ERROR_ISC_UNSUPPORTED :
        Except sensor_error_t Nat) ≠
      Except.error sensor_error_t.SENSOR_ERROR_ISC_UNDETECTED := by
  constructor
  · rfl
  · intro h
    injection h with h
    exact sensor_error_t.noConfusion h

/-- C9 amended: if an answering device's identifier matches no known driver
profile (such as 0x2021), `sensor_probe_init` returns `ISC_UNSUPPORTED`;
`ISC_UNDETECTED` is reserved for no address answering at all. -/
theorem probe_unknown_id_unsupported (bus : Nat → Option Nat) (resetOk : Bool)
    (a id : Nat)
    (hfind : knownSlaveAddrs.find? (fun x => (bus x).isSome) = some a)
    (hbus : bus a = some id) (hid : id ∉ knownChipIds) :
    sensor_probe_init bus resetOk
      = Except.error sensor_error_t.SENSOR_ERROR_ISC_UNSUPPORTED := by
  unfold sensor_probe_init
  rw [hfind]
  simp only [hbus]
  rw [if_neg hid]

/-- C9 amended witness: the concrete unknown-identifier bus of the
counterexample indeed yields `ISC_UNSUPPORTED`. -/
theorem probe_unknown_id_unsupported_witness :
    sensor_probe_init (fun a => if a = 0x48 then some 0x2021 else none) false
      = Except.error sensor_error_t.SENSOR_ERROR_ISC_UNSUPPORTED :=
  probe_unknown_id_unsupported
    (fun a => if a = 0x48 then some 0x2021 else none) false 0x48 0x2021
    (by decide) (by decide) (by decide)

/-- C10: stripping the abort tag never conflates two requests — the 32
ioctl request codes with the `SENSOR_IOCTL_ABORT` bit masked off are
pairwise distinct and occupy exactly the values 0x00 through 0x1F. -/
theorem ioctl_codes_distinct_without_abort_tag :
    (∀ a b : ioctl_t, a ≠ b →
      ioctlStripAbort (ioctlCode a) ≠ ioctlStripAbort (ioctlCode b)) ∧
    (∀ a : ioctl_t, ioctlStripAbort (ioctlCode a) < 32) ∧
    (∀ v : Fin 32, ∃ a : ioctl_t, ioctlStripAbort (ioctlCode a) = v.val) := by
  refine ⟨?_, ?_, ?_⟩ <;> decide

end OMV
